import Mathlib

/-!
Verification of the annotation translation engine of the go_preprocess
repository, a shallow embedding of
`src/gopreprocess/annotation_converter.py` (the ortholog variant) and
`src/gopreprocess/goa_annotation_creation_controller.py` (the
cross-reference / protein-2-GO variant).
-/

/-- An ontobio `Curie`: a namespace plus local-identity pair.
(`namespace` is a Lean keyword, so the field is called `nspace`.) -/
structure Curie where
  nspace : String
  identity : String
deriving DecidableEq, Repr

/-- Rendering of `str(curie)` as ontobio performs it: `namespace:identity`. -/
def curieToStr (c : Curie) : String :=
  c.nspace ++ ":" ++ c.identity

/-- Python `str.split(sep)` for a single-character separator, on a
character list.  `"".split(":") == [""]`, separators at the ends produce
empty fields, exactly as in Python. -/
def pySplitChar (sep : Char) : List Char → List (List Char)
  | [] => [[]]
  | c :: rest =>
    if c = sep then [] :: pySplitChar sep rest
    else
      match pySplitChar sep rest with
      | [] => [[c]]
      | w :: ws => (c :: w) :: ws

/-- Python `str.split(sep)` on strings (single-character separator). -/
def pySplit (sep : Char) (s : String) : List String :=
  (pySplitChar sep s.toList).map List.asString

/-- One bounded pass of Python `str.replace`: replace every
non-overlapping occurrence of `pat` in `s`, scanning left to right, with
`fuel` bounding recursion depth (call it with `fuel = s.length + 1`). -/
def pyReplaceAux (pat rep : List Char) : Nat → List Char → List Char
  | 0, s => s
  | _ + 1, [] => []
  | fuel + 1, c :: rest =>
    if pat.isPrefixOf (c :: rest) ∧ pat ≠ [] then
      rep ++ pyReplaceAux pat rep fuel ((c :: rest).drop pat.length)
    else
      c :: pyReplaceAux pat rep fuel rest

/-- Python `s.replace(pat, rep)`: every non-overlapping occurrence of
`pat` is replaced by `rep`, scanning the original string left to right. -/
def pyReplace (s pat rep : String) : String :=
  (pyReplaceAux pat.toList rep.toList (s.toList.length + 1) s.toList).asString

/-- ontobio `Curie.from_str`, an external collaborator of this
repository: splits a `prefix:identity` string at the first colon into
namespace and identity (the remainder keeps any further colons). -/
def curieFromStr (s : String) : Curie :=
  match pySplit ':' s with
  | ns :: rest => { nspace := ns, identity := String.intercalate ":" rest }
  | [] => { nspace := s, identity := "" }

/-- ontobio `ConjunctiveSet`: a conjunctive group of identifiers inside
`with_support_from`. -/
structure ConjunctiveSet where
  elements : List Curie
deriving DecidableEq, Repr

/-- The `evidence` sub-record of a `GoAssociation`. -/
structure Evidence where
  type : Curie
  has_supporting_reference : List Curie
  with_support_from : List ConjunctiveSet
deriving DecidableEq, Repr

/-- The `subject` sub-record of a `GoAssociation`. -/
structure SubjectRec where
  id : Curie
  taxon : Curie
  fullname : String
  label : String
  type : List Curie
  synonyms : List String
deriving DecidableEq, Repr

/-- The `object` sub-record of a `GoAssociation` (ontology term side). -/
structure ObjectRec where
  id : Curie
  taxon : Curie
deriving DecidableEq, Repr

/-- An ontobio `GoAssociation` restricted to the fields the translation
engine reads or writes. -/
structure GoAssociation where
  subject : SubjectRec
  object : ObjectRec
  evidence : Evidence
  provided_by : String
deriving DecidableEq, Repr

/-- A Gene Metadata Store record (`target_genes[key]` in the source): a
dict with `"fullname"`, `"label"` and `"type"` entries, the last an
ordered list of gene-product-type labels. -/
structure GeneMetadata where
  fullname : String
  label : String
  type : List String
deriving DecidableEq, Repr

/-- A Python exception as the engine can raise it: `KeyError` carries the
missing key, `IndexError` arises from out-of-range list indexing. -/
inductive PyErr where
  | keyError (key : String)
  | indexError
deriving DecidableEq, Repr

/-- The configuration fields of `AnnotationConverter` together with the
external settings it reads (`iso_eco_code`, `taxon_to_provider` and
ontobio's `map_gp_type_label_to_curie` live outside this repository, so
they are carried as fields of the context). `ortho_reference` holds the
value computed in `__init__`, i.e. `ortho_reference.split(":")[1]`. -/
structure ConverterCtx where
  target_taxon : String
  source_taxon : String
  ortho_reference : String
  iso_eco_code : String
  taxon_to_provider : String → String
  map_gp_type_label_to_curie : String → Curie

/-- Handling of the `ortho_reference` argument by
`AnnotationConverter.__init__`: the constructor stores
`ortho_reference.split(":")[1]`, which raises `IndexError`
when the string has no colon (fewer than two fields). -/
def initOrthoReference (ortho_reference : String) : Except PyErr String :=
  match pySplit ':' ortho_reference with
  | _ :: second :: _ => .ok second
  | _ => .error .indexError

/-- The method `AnnotationConverter.generate_annotation`, the ortholog-variant
per-record rewrite.  The Python method mutates `annotation` field by
field and returns it; here each assignment builds the next record value
in the same order as the source lines.  Dictionary lookups that would
raise `KeyError` in Python return `Except.error (.keyError key)`;
`target_genes[...].get("type")[0]` on an empty type list raises
`IndexError`. -/
def generate_annotation (ctx : ConverterCtx) (assoc : GoAssociation)
    (gene_map : List (String × String))
    (target_genes : List (String × GeneMetadata)) : Except PyErr GoAssociation :=
  let a1 := { assoc with evidence := { assoc.evidence with
      with_support_from := [⟨[⟨assoc.subject.id.nspace, assoc.subject.id.identity⟩]⟩],
      has_supporting_reference := [⟨"GO_REF", ctx.ortho_reference⟩],
      type := ⟨"ECO", ctx.iso_eco_code⟩ }}
  match gene_map.lookup (curieToStr assoc.subject.id) with
  | none => .error (.keyError (curieToStr assoc.subject.id))
  | some mapped_id =>
    let a2 := { a1 with
      subject := { a1.subject with
        id := ⟨"MGI", mapped_id⟩,
        taxon := curieFromStr ctx.target_taxon,
        synonyms := [] },
      object := { a1.object with taxon := curieFromStr ctx.target_taxon } }
    let a3 := if a2.provided_by = ctx.taxon_to_provider ctx.source_taxon
      then { a2 with provided_by := ctx.taxon_to_provider ctx.target_taxon }
      else a2
    match target_genes.lookup (curieToStr a3.subject.id) with
    | none => .error (.keyError (curieToStr a3.subject.id))
    | some meta =>
      let a4 := { a3 with subject := { a3.subject with
          fullname := meta.fullname, label := meta.label } }
      match meta.type with
      | [] => .error .indexError
      | t0 :: _ =>
        .ok { a4 with subject := { a4.subject with
            type := [ctx.map_gp_type_label_to_curie t0] } }

/-- Whether a record passes the ortholog variant's pre-filter
`str(annotation.subject.id) in source_gene_set` (the key set of the gene
correspondence map). -/
def isMapped (gene_map : List (String × String)) (a : GoAssociation) : Bool :=
  (gene_map.lookup (curieToStr a.subject.id)).isSome

/-- The record loop of `AnnotationConverter.convert_annotations`: each
record whose subject id is in the correspondence map's key set is passed
through `generate_annotation` and appended; others are skipped.  An
exception raised by `generate_annotation` aborts the whole run, so the
loop is an `Except` computation. -/
def convert_annotations (ctx : ConverterCtx)
    (source_annotations : List GoAssociation)
    (source_genes : List (String × String))
    (target_genes : List (String × GeneMetadata)) :
    Except PyErr (List GoAssociation) :=
  match source_annotations with
  | [] => .ok []
  | a :: rest =>
    if isMapped source_genes a then
      match generate_annotation ctx a source_genes target_genes with
      | .error e => .error e
      | .ok na =>
        match convert_annotations ctx rest source_genes target_genes with
        | .error e => .error e
        | .ok outs => .ok (na :: outs)
    else convert_annotations ctx rest source_genes target_genes

/-- The ortholog loop instrumented with the mutation the Python code
performs: `generate_annotation` mutates the input record object in
place and returns that same object, so after a successful run a mapped
input slot holds the rewritten record (the very value that was emitted)
while an unmapped slot keeps its original record.  Returns (post-run
values of the input records, emitted outputs). -/
def orthoRunState (ctx : ConverterCtx)
    (source_annotations : List GoAssociation)
    (source_genes : List (String × String))
    (target_genes : List (String × GeneMetadata)) :
    Except PyErr (List GoAssociation × List GoAssociation) :=
  match source_annotations with
  | [] => .ok ([], [])
  | a :: rest =>
    if isMapped source_genes a then
      match generate_annotation ctx a source_genes target_genes with
      | .error e => .error e
      | .ok na =>
        match orthoRunState ctx rest source_genes target_genes with
        | .error e => .error e
        | .ok (finals, outs) => .ok (na :: finals, na :: outs)
    else
      match orthoRunState ctx rest source_genes target_genes with
      | .error e => .error e
      | .ok (finals, outs) => .ok (a :: finals, outs)

/-- The function `generate_annotation` of
`goa_annotation_creation_controller.py`, the cross-reference
(protein-2-GO) variant: when the subject id is a key of `xrefs` it
deep-copies the record, replaces the subject id by
`Curie("MGI", xrefs[id].replace("MGI:MGI:", "MGI:"))`, clears the
synonyms, sets `object.taxon` to `NCBITaxon:10090` and `provided_by` to
`"GO_Central"`; otherwise it returns `None`. -/
def p2gGenerate (assoc : GoAssociation)
    (xrefs : List (Curie × String)) : Option GoAssociation :=
  match xrefs.lookup assoc.subject.id with
  | some v =>
    let new_gene : Curie := ⟨"MGI", pyReplace v "MGI:MGI:" "MGI:"⟩
    some { assoc with
      subject := { assoc.subject with id := new_gene, synonyms := [] },
      object := { assoc.object with taxon := curieFromStr "NCBITaxon:10090" },
      provided_by := "GO_Central" }
  | none => none

/-- The list comprehension of
`P2GAnnotationCreationController.convert_annotations`: every source
record for which `p2gGenerate` returns a record contributes exactly that
record, input order preserved, `None` results dropped. -/
def p2gConvert (source_annotations : List GoAssociation)
    (xrefs : List (Curie × String)) : List GoAssociation :=
  source_annotations.filterMap (fun a => p2gGenerate a xrefs)

/-- The record value that `generate_annotation` produces on success,
as a function of the original record, the mapped identity, the metadata
record and its first type label. -/
def orthoRewrite (ctx : ConverterCtx) (a : GoAssociation) (mapped_id : String)
    (meta : GeneMetadata) (t0 : String) : GoAssociation :=
  { subject := {
      id := ⟨"MGI", mapped_id⟩,
      taxon := curieFromStr ctx.target_taxon,
      fullname := meta.fullname,
      label := meta.label,
      type := [ctx.map_gp_type_label_to_curie t0],
      synonyms := [] },
    object := { a.object with taxon := curieFromStr ctx.target_taxon },
    evidence := {
      type := ⟨"ECO", ctx.iso_eco_code⟩,
      has_supporting_reference := [⟨"GO_REF", ctx.ortho_reference⟩],
      with_support_from := [⟨[⟨a.subject.id.nspace, a.subject.id.identity⟩]⟩] },
    provided_by := if a.provided_by = ctx.taxon_to_provider ctx.source_taxon
      then ctx.taxon_to_provider ctx.target_taxon else a.provided_by }

/-- The record value the cross-reference variant produces on its success
path, as a function of the original record and the xref value. -/
def p2gRewrite (a : GoAssociation) (v : String) : GoAssociation :=
  { a with
    subject := { a.subject with
      id := ⟨"MGI", pyReplace v "MGI:MGI:" "MGI:"⟩, synonyms := [] },
    object := { a.object with taxon := curieFromStr "NCBITaxon:10090" },
    provided_by := "GO_Central" }

/-- A concrete converter configuration for witnesses: rat (`RGD`) to
mouse (`MGI`) as the real pipeline runs it, with `ortho_reference`
already holding `"GO_REF:0000096".split(":")[1]`. -/
def ctx0 : ConverterCtx where
  target_taxon := "NCBITaxon:10090"
  source_taxon := "NCBITaxon:10116"
  ortho_reference := "0000096"
  iso_eco_code := "ECO:0000266"
  taxon_to_provider := fun t =>
    if t = "NCBITaxon:10116" then "RGD"
    else if t = "NCBITaxon:10090" then "MGI" else "GO_Central"
  map_gp_type_label_to_curie := fun t => ⟨"gp_type", t⟩

/-- A concrete rat annotation record for the ortholog variant. -/
def recA : GoAssociation where
  subject := {
    id := ⟨"RGD", "1234"⟩,
    taxon := ⟨"NCBITaxon", "10116"⟩,
    fullname := "rat abc protein",
    label := "Abc1r",
    type := [⟨"gp_type", "gene"⟩],
    synonyms := ["alpha"] }
  object := { id := ⟨"GO", "0008150"⟩, taxon := ⟨"NCBITaxon", "10116"⟩ }
  evidence := {
    type := ⟨"ECO", "0000315"⟩,
    has_supporting_reference := [⟨"PMID", "123"⟩],
    with_support_from := [] }
  provided_by := "RGD"

/-- A concrete gene correspondence map entry for `recA`. -/
def gm0 : List (String × String) := [("RGD:1234", "5678")]

/-- Concrete target-gene metadata for the mapped id of `recA`. -/
def metaA : GeneMetadata where
  fullname := "abc protein 1"
  label := "Abc1"
  type := ["protein_coding_gene"]

/-- A concrete gene metadata store keyed by the mapped id of `recA`. -/
def tg0 : List (String × GeneMetadata) := [("MGI:5678", metaA)]

/-- The record the ortholog variant emits for `recA`. -/
def outA : GoAssociation := orthoRewrite ctx0 recA "5678" metaA "protein_coding_gene"

/-- A concrete protein-2-GO annotation record for the cross-reference
variant, carrying its own evidence fields and a human taxon tag. -/
def recB : GoAssociation where
  subject := {
    id := ⟨"UniProtKB", "P12345"⟩,
    taxon := ⟨"NCBITaxon", "9606"⟩,
    fullname := "some protein",
    label := "P1",
    type := [],
    synonyms := ["sp1"] }
  object := { id := ⟨"GO", "0005575"⟩, taxon := ⟨"NCBITaxon", "9606"⟩ }
  evidence := {
    type := ⟨"ECO", "0000501"⟩,
    has_supporting_reference := [⟨"PMID", "99"⟩],
    with_support_from := [] }
  provided_by := "UniProt"

/-- A concrete xrefs table mapping the subject of `recB`. -/
def xrefs0 : List (Curie × String) := [(⟨"UniProtKB", "P12345"⟩, "MGI:MGI:97848")]

/-- The record the cross-reference variant emits for `recB`. -/
def outB : GoAssociation := p2gRewrite recB "MGI:MGI:97848"

/-- The cross-reference loop instrumented with the state of the input
records: `generate_annotation` here deep-copies the record before
mutating, so after the run every input slot still holds its original
record.  Returns (post-run values of the input records, emitted
outputs). -/
def p2gRunState (source_annotations : List GoAssociation)
    (xrefs : List (Curie × String)) :
    List GoAssociation × List GoAssociation :=
  match source_annotations with
  | [] => ([], [])
  | a :: rest =>
    let p := p2gRunState rest xrefs
    match p2gGenerate a xrefs with
    | some na => (a :: p.1, na :: p.2)
    | none => (a :: p.1, p.2)

/-- Variant of `recB` with a different provenance label, also not `"GO_Central"`. -/
def recB2 : GoAssociation := { recB with provided_by := "WB" }

/-- A record whose subject is mapped by `xrefs9` below. -/
def recD : GoAssociation :=
  { recB with subject := { recB.subject with id := ⟨"UniProtKB", "Q99999"⟩ } }

/-- An xrefs table whose value carries a tripled `MGI:` prefix. -/
def xrefs9 : List (Curie × String) :=
  [(⟨"UniProtKB", "Q99999"⟩, "MGI:MGI:MGI:3588192")]

/-- A record whose subject is mapped by `xrefsE` below. -/
def recE : GoAssociation :=
  { recB with subject := { recB.subject with id := ⟨"UniProtKB", "O00000"⟩ } }

/-- An xrefs table whose value contains `MGI:MGI:` away from the start
of the string. -/
def xrefsE : List (Curie × String) :=
  [(⟨"UniProtKB", "O00000"⟩, "X:MGI:MGI:1")]

theorem generate_annotation_ok (ctx : ConverterCtx) (a : GoAssociation)
    (gm : List (String × String)) (tg : List (String × GeneMetadata))
    (mapped_id t0 : String) (meta : GeneMetadata) (ts : List String)
    (h1 : gm.lookup (curieToStr a.subject.id) = some mapped_id)
    (h2 : tg.lookup (curieToStr ⟨"MGI", mapped_id⟩) = some meta)
    (h3 : meta.type = t0 :: ts) :
    generate_annotation ctx a gm tg = .ok (orthoRewrite ctx a mapped_id meta t0) := by
  by_cases hp : a.provided_by = ctx.taxon_to_provider ctx.source_taxon <;>
    simp [ generate_annotation, orthoRewrite, h1, h2, h3, hp]

theorem generate_annotation_ok_inv (ctx : ConverterCtx) (a : GoAssociation)
    (gm : List (String × String)) (tg : List (String × GeneMetadata))
    (out : GoAssociation)
    (h : generate_annotation ctx a gm tg = .ok out) :
    ∃ mapped_id meta t0 ts,
      gm.lookup (curieToStr a.subject.id) = some mapped_id ∧
      tg.lookup (curieToStr ⟨"MGI", mapped_id⟩) = some meta ∧
      meta.type = t0 :: ts ∧
      out = orthoRewrite ctx a mapped_id meta t0 := by
  unfold generate_annotation at h
  split at h
  · exact absurd h (by simp)
  next mapped_id h1 =>
    by_cases hp : a.provided_by = ctx.taxon_to_provider ctx.source_taxon
    all_goals simp only [hp, ite_true, ite_false] at h
    all_goals split at h
    · exact absurd h (by simp)
    next meta h2 =>
      split at h
      · exact absurd h (by simp)
      next t0 ts h3 =>
        exact ⟨mapped_id, meta, t0, ts, h1, h2, h3,
          by simp only [Except.ok.injEq] at h; simp [← h, orthoRewrite, hp]⟩
    · exact absurd h (by simp)
    next meta h2 =>
      split at h
      · exact absurd h (by simp)
      next t0 ts h3 =>
        exact ⟨mapped_id, meta, t0, ts, h1, h2, h3,
          by simp only [Except.ok.injEq] at h; simp [← h, orthoRewrite, hp]⟩

theorem p2gGenerate_eq (a : GoAssociation) (xrefs : List (Curie × String)) :
    p2gGenerate a xrefs = (xrefs.lookup a.subject.id).map (p2gRewrite a) := by
  unfold p2gGenerate p2gRewrite
  cases xrefs.lookup a.subject.id <;> rfl

/-- C1: the claim as stated is false for the cross-reference variant.
On the concrete mapped record `recB` the emitted record keeps the input
evidence fields and the input subject taxon; only `object.taxon` is set
to the target taxon, so `subject.taxon ≠ object.taxon` in the output,
contradicting "subject.taxon and object.taxon both equal the target
taxon Curie" and the evidence-field equalities. -/
theorem C1_counterexample :
    p2gGenerate recB xrefs0 = some outB ∧
    outB.object.taxon = curieFromStr "NCBITaxon:10090" ∧
    outB.subject.taxon ≠ outB.object.taxon ∧
    outB.evidence = recB.evidence :=
  ⟨rfl, rfl, by decide, rfl⟩

/-- C1 (amended): in the ortholog variant every emitted record has
`has_supporting_reference = [Curie("GO_REF", ortho_reference)]`,
`evidence.type = Curie("ECO", iso_eco_code)` and both taxa equal to the
target taxon Curie; in the cross-reference variant only `object.taxon`
is set to the target taxon `NCBITaxon:10090`, while the evidence record
and `subject.taxon` are copied unchanged from the source record. -/
theorem C1_field_rewrite :
    (∀ (ctx : ConverterCtx) (a : GoAssociation)
        (gm : List (String × String)) (tg : List (String × GeneMetadata))
        (out : GoAssociation),
        generate_annotation ctx a gm tg = .ok out →
        out.evidence.has_supporting_reference = [⟨"GO_REF", ctx.ortho_reference⟩] ∧
        out.evidence.type = ⟨"ECO", ctx.iso_eco_code⟩ ∧
        out.subject.taxon = curieFromStr ctx.target_taxon ∧
        out.object.taxon = curieFromStr ctx.target_taxon) ∧
    (∀ (a : GoAssociation) (xrefs : List (Curie × String)) (out : GoAssociation),
        p2gGenerate a xrefs = some out →
        out.object.taxon = curieFromStr "NCBITaxon:10090" ∧
        out.subject.taxon = a.subject.taxon ∧
        out.evidence = a.evidence) := by
  constructor
  · intro ctx a gm tg out h
    obtain ⟨mid, meta, t0, ts, h1, h2, h3, rfl⟩ :=
      generate_annotation_ok_inv ctx a gm tg out h
    simp [orthoRewrite]
  · intro a xrefs out h
    rw [p2gGenerate_eq] at h
    cases hx : xrefs.lookup a.subject.id with
    | none => rw [hx] at h; exact absurd h (by simp)
    | some v =>
      rw [hx] at h
      simp only [Option.map_some', Option.some.injEq] at h
      subst h
      simp [p2gRewrite]

/-- Witness for C1 (amended) at the concrete inputs `recA`/`recB`. -/
theorem C1_field_rewrite_witness :
    ( generate_annotation ctx0 recA gm0 tg0 = .ok outA ∧
      (outA.evidence.has_supporting_reference = [⟨"GO_REF", ctx0.ortho_reference⟩] ∧
       outA.evidence.type = ⟨"ECO", ctx0.iso_eco_code⟩ ∧
       outA.subject.taxon = curieFromStr ctx0.target_taxon ∧
       outA.object.taxon = curieFromStr ctx0.target_taxon)) ∧
    (p2gGenerate recB xrefs0 = some outB ∧
      (outB.object.taxon = curieFromStr "NCBITaxon:10090" ∧
       outB.subject.taxon = recB.subject.taxon ∧
       outB.evidence = recB.evidence)) :=
  ⟨⟨rfl, C1_field_rewrite.1 ctx0 recA gm0 tg0 outA rfl⟩,
   ⟨rfl, C1_field_rewrite.2 recB xrefs0 outB rfl⟩⟩

/-- C2: the claim as stated is false for the ortholog variant.  On the
concrete one-record input `[recA]`, `generate_annotation` mutates the
input record object in place and returns it: after the run the input
slot holds `outA`, not `recA`, so the input Source Annotation Set is
changed and the output aliases it. -/
theorem C2_counterexample :
    orthoRunState ctx0 [recA] gm0 tg0 = .ok ([outA], [outA]) ∧
    outA ≠ recA :=
  ⟨rfl, by decide⟩

/-- C2 (amended): in the cross-reference variant every input slot still
holds its original record after the run (the output records are deep
copies); in the ortholog variant a successful run leaves each mapped
input slot holding precisely the rewritten record, and the emitted
output sequence is exactly those post-run slot values at the mapped
positions, i.e. each ortholog output aliases its (mutated) source
record. -/
theorem C2_aliasing :
    (∀ (recs : List GoAssociation) (xrefs : List (Curie × String)),
        (p2gRunState recs xrefs).1 = recs ∧
        (p2gRunState recs xrefs).2 = p2gConvert recs xrefs) ∧
    (∀ (ctx : ConverterCtx) (recs : List GoAssociation)
        (gm : List (String × String)) (tg : List (String × GeneMetadata))
        (finals outs : List GoAssociation),
        orthoRunState ctx recs gm tg = .ok (finals, outs) →
        List.Forall₂ (fun r f =>
          if isMapped gm r then generate_annotation ctx r gm tg = .ok f
          else f = r) recs finals ∧
        outs = (recs.zip finals).filterMap
          (fun p => if isMapped gm p.1 then some p.2 else none)) := by
  constructor
  · intro recs xrefs
    induction recs with
    | nil => exact ⟨rfl, rfl⟩
    | cons a rest ih =>
      cases hg : p2gGenerate a xrefs <;>
        simp [p2gRunState, p2gConvert, List.filterMap_cons, hg, ih.1, ih.2]
  · intro ctx recs gm tg
    induction recs with
    | nil =>
      intro finals outs h
      simp only [orthoRunState, Except.ok.injEq, Prod.mk.injEq] at h
      obtain ⟨rfl, rfl⟩ := h
      exact ⟨List.Forall₂.nil, rfl⟩
    | cons a rest ih =>
      intro finals outs h
      unfold orthoRunState at h
      by_cases hm : isMapped gm a = true
      · simp only [hm, if_true] at h
        cases hg : generate_annotation ctx a gm tg with
        | error e => rw [hg] at h; exact absurd h (by simp)
        | ok na =>
          rw [hg] at h
          cases hr : orthoRunState ctx rest gm tg with
          | error e => rw [hr] at h; exact absurd h (by simp)
          | ok p =>
            obtain ⟨finals', outs'⟩ := p
            rw [hr] at h
            simp only [Except.ok.injEq, Prod.mk.injEq] at h
            obtain ⟨rfl, rfl⟩ := h
            obtain ⟨ihf, iho⟩ := ih finals' outs' hr
            refine ⟨List.Forall₂.cons (by simp [hm, hg]) ihf, ?_⟩
            simp [List.filterMap_cons, hm, iho]
      · simp only [hm, if_false] at h
        cases hr : orthoRunState ctx rest gm tg with
        | error e => rw [hr] at h; exact absurd h (by simp)
        | ok p =>
          obtain ⟨finals', outs'⟩ := p
          rw [hr] at h
          simp only [Except.ok.injEq, Prod.mk.injEq] at h
          obtain ⟨rfl, rfl⟩ := h
          obtain ⟨ihf, iho⟩ := ih finals' outs hr
          refine ⟨List.Forall₂.cons (by simp [hm]) ihf, ?_⟩
          simp [List.filterMap_cons, hm, iho]

/-- Witness for C2 (amended) at the concrete inputs `[recB]`/`[recA]`. -/
theorem C2_aliasing_witness :
    ((p2gRunState [recB] xrefs0).1 = [recB] ∧
     (p2gRunState [recB] xrefs0).2 = p2gConvert [recB] xrefs0) ∧
    (orthoRunState ctx0 [recA] gm0 tg0 = .ok ([outA], [outA]) ∧
     (List.Forall₂ (fun r f =>
        if isMapped gm0 r then generate_annotation ctx0 r gm0 tg0 = .ok f
        else f = r) [recA] [outA] ∧
      [outA] = (([recA].zip [outA]).filterMap
        (fun p => if isMapped gm0 p.1 then some p.2 else none)))) :=
  ⟨C2_aliasing.1 [recB] xrefs0,
   ⟨rfl, C2_aliasing.2 ctx0 [recA] gm0 tg0 [outA] [outA] rfl⟩⟩

/-- C3: running either variant twice on the same frozen inputs (equal
record sequences, correspondence map / xrefs, metadata store and
context) yields identical output sequences.  Both engines are pure
functions of their four inputs in this embedding, so a second run on
inputs frozen at the same values cannot differ: there is no hidden
state. -/
theorem C3_deterministic :
    ∀ (ctx ctx2 : ConverterCtx) (recs recs2 : List GoAssociation)
      (gm gm2 : List (String × String)) (tg tg2 : List (String × GeneMetadata))
      (xrefs xrefs2 : List (Curie × String)),
      ctx = ctx2 → recs = recs2 → gm = gm2 → tg = tg2 → xrefs = xrefs2 →
      convert_annotations ctx recs gm tg = convert_annotations ctx2 recs2 gm2 tg2 ∧
      p2gConvert recs xrefs = p2gConvert recs2 xrefs2 := by
  intro ctx ctx2 recs recs2 gm gm2 tg tg2 xrefs xrefs2 h1 h2 h3 h4 h5
  subst h1; subst h2; subst h3; subst h4; subst h5
  exact ⟨rfl, rfl⟩

/-- Witness for C3 at the concrete inputs of the other claims. -/
theorem C3_deterministic_witness :
    ctx0 = ctx0 ∧ [recA] = [recA] ∧ gm0 = gm0 ∧ tg0 = tg0 ∧ xrefs0 = xrefs0 ∧
    (convert_annotations ctx0 [recA] gm0 tg0 = convert_annotations ctx0 [recA] gm0 tg0 ∧
     p2gConvert [recA] xrefs0 = p2gConvert [recA] xrefs0) :=
  ⟨rfl, rfl, rfl, rfl, rfl,
   C3_deterministic ctx0 ctx0 [recA] [recA] gm0 gm0 tg0 tg0 xrefs0 xrefs0
     rfl rfl rfl rfl rfl⟩

/-- C4: an input record whose subject id is not a key of the gene
correspondence map (ortholog variant) or of the xrefs mapping
(cross-reference variant) contributes no output record and raises no
exception; the run continues exactly as if the record were absent. -/
theorem C4_unmapped_dropped :
    (∀ (ctx : ConverterCtx) (a : GoAssociation) (rest : List GoAssociation)
        (gm : List (String × String)) (tg : List (String × GeneMetadata)),
        isMapped gm a = false →
        convert_annotations ctx (a :: rest) gm tg =
          convert_annotations ctx rest gm tg) ∧
    (∀ (a : GoAssociation) (rest : List GoAssociation)
        (xrefs : List (Curie × String)),
        xrefs.lookup a.subject.id = none →
        p2gGenerate a xrefs = none ∧
        p2gConvert (a :: rest) xrefs = p2gConvert rest xrefs) := by
  constructor
  · intro ctx a rest gm tg hm
    simp [convert_annotations, hm]
  · intro a rest xrefs hx
    have hg : p2gGenerate a xrefs = none := by
      rw [p2gGenerate_eq, hx]; rfl
    exact ⟨hg, by simp [p2gConvert, List.filterMap_cons, hg]⟩

/-- Witness for C4: `recB` is unmapped in `gm0`, `recA` is unmapped in
`xrefs0`. -/
theorem C4_unmapped_dropped_witness :
    (isMapped gm0 recB = false ∧
     convert_annotations ctx0 (recB :: [recA]) gm0 tg0 =
       convert_annotations ctx0 [recA] gm0 tg0) ∧
    (xrefs0.lookup recA.subject.id = none ∧
     p2gGenerate recA xrefs0 = none ∧
     p2gConvert (recA :: [recB]) xrefs0 = p2gConvert [recB] xrefs0) :=
  ⟨⟨by decide, C4_unmapped_dropped.1 ctx0 recB [recA] gm0 tg0 (by decide)⟩,
   ⟨by decide, C4_unmapped_dropped.2 recA [recB] xrefs0 (by decide)⟩⟩

/-- C5: when a record's subject id is a key of the gene correspondence
map but the mapped target identifier is absent from the gene metadata
store, the ortholog engine raises a lookup error (a `KeyError`)
carrying the offending target identifier `MGI:<mapped id>`, and the
whole run aborts with that error instead of completing or silently
dropping the record. -/
theorem C5_metadata_fault :
    ∀ (ctx : ConverterCtx) (a : GoAssociation) (rest : List GoAssociation)
      (gm : List (String × String)) (tg : List (String × GeneMetadata))
      (mapped_id : String),
      gm.lookup (curieToStr a.subject.id) = some mapped_id →
      tg.lookup (curieToStr ⟨"MGI", mapped_id⟩) = none →
      generate_annotation ctx a gm tg =
        .error (.keyError (curieToStr ⟨"MGI", mapped_id⟩)) ∧
      convert_annotations ctx (a :: rest) gm tg =
        .error (.keyError (curieToStr ⟨"MGI", mapped_id⟩)) := by
  intro ctx a rest gm tg mapped_id h1 h2
  have hg : generate_annotation ctx a gm tg =
      .error (.keyError (curieToStr ⟨"MGI", mapped_id⟩)) := by
    by_cases hp : a.provided_by = ctx.taxon_to_provider ctx.source_taxon <;>
      simp [ generate_annotation, h1, h2, hp]
  have hm : isMapped gm a = true := by simp [isMapped, h1]
  exact ⟨hg, by simp [convert_annotations, hm, hg]⟩

/-- Witness for C5: `recA` is mapped by `gm0` to `5678`, and an empty
metadata store lacks `MGI:5678`. -/
theorem C5_metadata_fault_witness :
    gm0.lookup (curieToStr recA.subject.id) = some "5678" ∧
    (([] : List (String × GeneMetadata)).lookup (curieToStr ⟨"MGI", "5678"⟩) = none) ∧
    ( generate_annotation ctx0 recA gm0 [] =
       .error (.keyError (curieToStr ⟨"MGI", "5678"⟩)) ∧
     convert_annotations ctx0 (recA :: []) gm0 [] =
       .error (.keyError (curieToStr ⟨"MGI", "5678"⟩))) :=
  ⟨by decide, rfl,
   C5_metadata_fault ctx0 recA [] gm0 [] "5678" (by decide) rfl⟩

/-- C6: in both variants the output contains exactly one record per
mapped input record, in input order (stated as an order-preserving
one-to-one correspondence between the mapped sublist of the input and
the output), so `len(output) ≤ len(input)` with equality iff every
input subject id is mapped, and no input record is emitted twice.  For
the ortholog variant this holds of every successfully completed run. -/
theorem C6_cardinality :
    (∀ (recs : List GoAssociation) (xrefs : List (Curie × String)),
        List.Forall₂ (fun r o => p2gGenerate r xrefs = some o)
          (recs.filter fun r => (xrefs.lookup r.subject.id).isSome)
          (p2gConvert recs xrefs) ∧
        (p2gConvert recs xrefs).length ≤ recs.length ∧
        ((p2gConvert recs xrefs).length = recs.length ↔
          ∀ r ∈ recs, (xrefs.lookup r.subject.id).isSome = true)) ∧
    (∀ (ctx : ConverterCtx) (recs : List GoAssociation)
        (gm : List (String × String)) (tg : List (String × GeneMetadata))
        (outs : List GoAssociation),
        convert_annotations ctx recs gm tg = .ok outs →
        List.Forall₂ (fun r o => generate_annotation ctx r gm tg = .ok o)
          (recs.filter fun r => isMapped gm r) outs ∧
        outs.length ≤ recs.length ∧
        (outs.length = recs.length ↔ ∀ r ∈ recs, isMapped gm r = true)) := by
  constructor
  · intro recs xrefs
    induction recs with
    | nil => exact ⟨List.Forall₂.nil, by simp [p2gConvert], by simp [p2gConvert]⟩
    | cons a rest ih =>
      obtain ⟨ihf, ihle, ihiff⟩ := ih
      cases hx : xrefs.lookup a.subject.id with
      | some v =>
        have hg : p2gGenerate a xrefs = some (p2gRewrite a v) := by
          rw [p2gGenerate_eq, hx]; rfl
        have hconv : p2gConvert (a :: rest) xrefs =
            p2gRewrite a v :: p2gConvert rest xrefs := by
          simp [p2gConvert, List.filterMap_cons, hg]
        have hfilter : ((a :: rest).filter fun r => (xrefs.lookup r.subject.id).isSome) =
            a :: (rest.filter fun r => (xrefs.lookup r.subject.id).isSome) := by
          simp [List.filter_cons, hx]
        refine ⟨?_, ?_, ?_⟩
        · rw [hconv, hfilter]
          exact List.Forall₂.cons hg ihf
        · rw [hconv]
          simpa using Nat.succ_le_succ ihle
        · rw [hconv]
          simp only [List.length_cons]
          constructor
          · intro hlen r hr
            rcases List.mem_cons.mp hr with rfl | hr2
            · simp [hx]
            · exact ihiff.mp (by omega) r hr2
          · intro hall
            have := ihiff.mpr (fun r hr => hall r (List.mem_cons_of_mem a hr))
            omega
      | none =>
        have hg : p2gGenerate a xrefs = none := by
          rw [p2gGenerate_eq, hx]; rfl
        have hconv : p2gConvert (a :: rest) xrefs = p2gConvert rest xrefs := by
          simp [p2gConvert, List.filterMap_cons, hg]
        have hfilter : ((a :: rest).filter fun r => (xrefs.lookup r.subject.id).isSome) =
            rest.filter fun r => (xrefs.lookup r.subject.id).isSome := by
          simp [List.filter_cons, hx]
        refine ⟨by rw [hconv, hfilter]; exact ihf,
          by rw [hconv]; exact Nat.le_succ_of_le ihle, ?_⟩
        rw [hconv]
        simp only [List.length_cons]
        constructor
        · intro hlen
          exfalso; omega
        · intro hall
          exact absurd (hall a (List.mem_cons_self a rest)) (by simp [hx])
  · intro ctx recs gm tg
    induction recs with
    | nil =>
      intro outs h
      simp only [convert_annotations, Except.ok.injEq] at h
      subst h
      exact ⟨List.Forall₂.nil, by simp, by simp⟩
    | cons a rest ih =>
      intro outs h
      unfold convert_annotations at h
      by_cases hm : isMapped gm a = true
      · simp only [hm, if_true] at h
        cases hg : generate_annotation ctx a gm tg with
        | error e => rw [hg] at h; exact absurd h (by simp)
        | ok na =>
          rw [hg] at h
          cases hr : convert_annotations ctx rest gm tg with
          | error e => rw [hr] at h; exact absurd h (by simp)
          | ok outs' =>
            rw [hr] at h
            simp only [Except.ok.injEq] at h
            subst h
            obtain ⟨ihf, ihle, ihiff⟩ := ih outs' hr
            have hfilter : ((a :: rest).filter fun r => isMapped gm r) =
                a :: (rest.filter fun r => isMapped gm r) := by
              simp [List.filter_cons, hm]
            refine ⟨by rw [hfilter]; exact List.Forall₂.cons hg ihf,
              by simpa using Nat.succ_le_succ ihle, ?_⟩
            simp only [List.length_cons]
            constructor
            · intro hlen r hr2
              rcases List.mem_cons.mp hr2 with rfl | hr3
              · exact hm
              · exact ihiff.mp (by omega) r hr3
            · intro hall
              have := ihiff.mpr (fun r hr2 => hall r (List.mem_cons_of_mem a hr2))
              omega
      · simp only [hm, if_false] at h
        obtain ⟨ihf, ihle, ihiff⟩ := ih outs h
        have hfilter : ((a :: rest).filter fun r => isMapped gm r) =
            rest.filter fun r => isMapped gm r := by
          simp [List.filter_cons, hm]
        refine ⟨by rw [hfilter]; exact ihf, Nat.le_succ_of_le ihle, ?_⟩
        simp only [List.length_cons]
        constructor
        · intro hlen
          exfalso; omega
        · intro hall
          exact absurd (hall a (List.mem_cons_self a rest)) (by simp [hm])

/-- Witness for C6 at the concrete inputs: `[recB]` is fully mapped by
`xrefs0`, and the ortholog run on `[recA]` completes with `[outA]`. -/
theorem C6_cardinality_witness :
    (List.Forall₂ (fun r o => p2gGenerate r xrefs0 = some o)
       ([recB].filter fun r => (xrefs0.lookup r.subject.id).isSome)
       (p2gConvert [recB] xrefs0) ∧
     (p2gConvert [recB] xrefs0).length ≤ 1 ∧
     ((p2gConvert [recB] xrefs0).length = ([recB] : List GoAssociation).length ↔
       ∀ r ∈ [recB], (xrefs0.lookup r.subject.id).isSome = true)) ∧
    (convert_annotations ctx0 [recA] gm0 tg0 = .ok [outA] ∧
     (List.Forall₂ (fun r o => generate_annotation ctx0 r gm0 tg0 = .ok o)
        ([recA].filter fun r => isMapped gm0 r) [outA] ∧
      ([outA] : List GoAssociation).length ≤ 1 ∧
      (([outA] : List GoAssociation).length = ([recA] : List GoAssociation).length ↔
        ∀ r ∈ [recA], isMapped gm0 r = true))) :=
  ⟨C6_cardinality.1 [recB] xrefs0,
   ⟨rfl, C6_cardinality.2 ctx0 [recA] gm0 tg0 [outA] rfl⟩⟩

/-- C7: the claim as stated is false for the cross-reference variant,
which sets `provided_by` to `"GO_Central"` unconditionally.  The two
mapped inputs `recB` and `recB2` carry distinct provenance labels
`"UniProt"` and `"WB"`, neither equal to `"GO_Central"`; whichever
string is taken as the source species' default attribution label, at
least one of the two differs from it, yet its output `provided_by` is
changed to `"GO_Central"` instead of being left unchanged. -/
theorem C7_counterexample :
    (p2gGenerate recB xrefs0).map GoAssociation.provided_by = some "GO_Central" ∧
    (p2gGenerate recB2 xrefs0).map GoAssociation.provided_by = some "GO_Central" ∧
    recB.provided_by = "UniProt" ∧ recB2.provided_by = "WB" ∧
    recB.provided_by ≠ recB2.provided_by ∧
    recB.provided_by ≠ "GO_Central" ∧ recB2.provided_by ≠ "GO_Central" :=
  ⟨rfl, rfl, rfl, rfl, by decide, by decide, by decide⟩

/-- C7 (amended): in the ortholog variant the conditional rewrite holds
as claimed — an input `provided_by` equal to the source species' default
attribution label becomes the target species' label, any other value is
unchanged; in the cross-reference variant every emitted record has
`provided_by = "GO_Central"` regardless of the input value. -/
theorem C7_provenance :
    (∀ (ctx : ConverterCtx) (a : GoAssociation)
        (gm : List (String × String)) (tg : List (String × GeneMetadata))
        (out : GoAssociation),
        generate_annotation ctx a gm tg = .ok out →
        (a.provided_by = ctx.taxon_to_provider ctx.source_taxon →
          out.provided_by = ctx.taxon_to_provider ctx.target_taxon) ∧
        (a.provided_by ≠ ctx.taxon_to_provider ctx.source_taxon →
          out.provided_by = a.provided_by)) ∧
    (∀ (a : GoAssociation) (xrefs : List (Curie × String)) (out : GoAssociation),
        p2gGenerate a xrefs = some out → out.provided_by = "GO_Central") := by
  constructor
  · intro ctx a gm tg out h
    obtain ⟨mid, meta, t0, ts, h1, h2, h3, rfl⟩ :=
      generate_annotation_ok_inv ctx a gm tg out h
    constructor
    · intro hp; simp [orthoRewrite, hp]
    · intro hp; simp [orthoRewrite, hp]
  · intro a xrefs out h
    rw [p2gGenerate_eq] at h
    cases hx : xrefs.lookup a.subject.id with
    | none => rw [hx] at h; exact absurd h (by simp)
    | some v =>
      rw [hx] at h
      simp only [Option.map_some', Option.some.injEq] at h
      subst h
      rfl

/-- Witness for C7 (amended): `recA.provided_by = "RGD"` matches the
source default and is rewritten to `"MGI"`; `recB` is rewritten to
`"GO_Central"` by the cross-reference variant. -/
theorem C7_provenance_witness :
    ( generate_annotation ctx0 recA gm0 tg0 = .ok outA ∧
     (recA.provided_by = ctx0.taxon_to_provider ctx0.source_taxon →
       outA.provided_by = ctx0.taxon_to_provider ctx0.target_taxon) ∧
     (recA.provided_by ≠ ctx0.taxon_to_provider ctx0.source_taxon →
       outA.provided_by = recA.provided_by)) ∧
    (p2gGenerate recB xrefs0 = some outB ∧ outB.provided_by = "GO_Central") :=
  ⟨⟨rfl, C7_provenance.1 ctx0 recA gm0 tg0 outA rfl⟩,
   ⟨rfl, C7_provenance.2 recB xrefs0 outB rfl⟩⟩

/-- C8: the claim as stated is false for the cross-reference variant,
which never touches `with_support_from`.  The mapped input `recB` has
an empty `with_support_from`; the emitted record keeps it empty instead
of the claimed single-element sequence wrapping the original subject
identifier. -/
theorem C8_counterexample :
    p2gGenerate recB xrefs0 = some outB ∧
    outB.evidence.with_support_from = [] ∧
    outB.evidence.with_support_from ≠ [ConjunctiveSet.mk [recB.subject.id]] :=
  ⟨rfl, rfl, by decide⟩

/-- C8 (amended): in the ortholog variant every emitted record's
`with_support_from` is a single-element sequence whose sole element is
a conjunctive set containing exactly the original (pre-translation)
subject identifier; in the cross-reference variant `with_support_from`
is copied unchanged from the source record. -/
theorem C8_with_support :
    (∀ (ctx : ConverterCtx) (a : GoAssociation)
        (gm : List (String × String)) (tg : List (String × GeneMetadata))
        (out : GoAssociation),
        generate_annotation ctx a gm tg = .ok out →
        out.evidence.with_support_from = [ConjunctiveSet.mk [a.subject.id]]) ∧
    (∀ (a : GoAssociation) (xrefs : List (Curie × String)) (out : GoAssociation),
        p2gGenerate a xrefs = some out →
        out.evidence.with_support_from = a.evidence.with_support_from) := by
  constructor
  · intro ctx a gm tg out h
    obtain ⟨mid, meta, t0, ts, h1, h2, h3, rfl⟩ :=
      generate_annotation_ok_inv ctx a gm tg out h
    rfl
  · intro a xrefs out h
    rw [p2gGenerate_eq] at h
    cases hx : xrefs.lookup a.subject.id with
    | none => rw [hx] at h; exact absurd h (by simp)
    | some v =>
      rw [hx] at h
      simp only [Option.map_some', Option.some.injEq] at h
      subst h
      rfl

/-- Witness for C8 (amended) at `recA` and `recB`. -/
theorem C8_with_support_witness :
    ( generate_annotation ctx0 recA gm0 tg0 = .ok outA ∧
     outA.evidence.with_support_from = [ConjunctiveSet.mk [recA.subject.id]]) ∧
    (p2gGenerate recB xrefs0 = some outB ∧
     outB.evidence.with_support_from = recB.evidence.with_support_from) :=
  ⟨⟨rfl, C8_with_support.1 ctx0 recA gm0 tg0 outA rfl⟩,
   ⟨rfl, C8_with_support.2 recB xrefs0 outB rfl⟩⟩

/-- C9: the claim as stated is false.  Python's `str.replace` replaces
every occurrence, not only a leading one: on the xref value
`"X:MGI:MGI:1"` (no leading doubled prefix) the emitted identity is
`"X:MGI:1"`, not the unchanged value the claim requires; and on the
tripled value `"MGI:MGI:MGI:3588192"` the single left-to-right pass
emits `"MGI:MGI:3588192"`, which still begins with the doubled
`"MGI:MGI:"` prefix. -/
theorem C9_counterexample :
    ((p2gGenerate recD xrefs9).map (fun o => o.subject.id.identity) =
       some "MGI:MGI:3588192" ∧
     ("MGI:MGI:3588192" : String).take 8 = "MGI:MGI:") ∧
    ((p2gGenerate recE xrefsE).map (fun o => o.subject.id.identity) =
       some "X:MGI:1" ∧
     ("X:MGI:MGI:1" : String).take 8 ≠ "MGI:MGI:" ∧
     ("X:MGI:1" : String) ≠ "X:MGI:MGI:1") :=
  ⟨⟨rfl, rfl⟩, ⟨rfl, by decide, by decide⟩⟩

/-- C9 (amended): for every eligible record the new subject identifier
has namespace `"MGI"` and identity equal to the xref value with every
non-overlapping occurrence of `"MGI:MGI:"` replaced by `"MGI:"` in one
left-to-right pass (Python `str.replace`).  A single leading doubling
collapses, but a tripled prefix yields an identity that still begins
with `"MGI:MGI:"`. -/
theorem C9_subject_id :
    (∀ (a : GoAssociation) (xrefs : List (Curie × String)) (v : String)
        (out : GoAssociation),
        xrefs.lookup a.subject.id = some v →
        p2gGenerate a xrefs = some out →
        out.subject.id.nspace = "MGI" ∧
        out.subject.id.identity = pyReplace v "MGI:MGI:" "MGI:") ∧
    pyReplace "MGI:MGI:97848" "MGI:MGI:" "MGI:" = "MGI:97848" ∧
    pyReplace "MGI:MGI:MGI:3588192" "MGI:MGI:" "MGI:" = "MGI:MGI:3588192" := by
  refine ⟨?_, rfl, rfl⟩
  intro a xrefs v out hx h
  rw [p2gGenerate_eq, hx] at h
  simp only [Option.map_some', Option.some.injEq] at h
  subst h
  exact ⟨rfl, rfl⟩

/-- Witness for C9 (amended) at `recD` and `xrefs9`. -/
theorem C9_subject_id_witness :
    xrefs9.lookup recD.subject.id = some "MGI:MGI:MGI:3588192" ∧
    p2gGenerate recD xrefs9 = some (p2gRewrite recD "MGI:MGI:MGI:3588192") ∧
    ((p2gRewrite recD "MGI:MGI:MGI:3588192").subject.id.nspace = "MGI" ∧
     (p2gRewrite recD "MGI:MGI:MGI:3588192").subject.id.identity =
       pyReplace "MGI:MGI:MGI:3588192" "MGI:MGI:" "MGI:") :=
  ⟨rfl, rfl,
   C9_subject_id.1 recD xrefs9 "MGI:MGI:MGI:3588192"
     (p2gRewrite recD "MGI:MGI:MGI:3588192") rfl rfl⟩

theorem pySplitChar_no_sep (sep : Char) (l : List Char)
    (h : ∀ c ∈ l, c ≠ sep) : pySplitChar sep l = [l] := by
  induction l with
  | nil => rfl
  | cons c rest ih =>
    have hc : c ≠ sep := h c (List.mem_cons_self c rest)
    have hrest := ih (fun x hx => h x (List.mem_cons_of_mem c hx))
    simp [pySplitChar, hc, hrest]

/-- C10: in the ortholog variant the supporting-reference Curie of every
emitted record has namespace fixed to `"GO_REF"` and identity equal to
the second `:`-separated field of the configured `ortho_reference`
string, regardless of that string's own namespace (e.g. `"FOO:123"`
yields identity `"123"`); an `ortho_reference` containing no `:` makes
`AnnotationConverter.__init__` raise an `IndexError` before any
translation occurs. -/
theorem C10_ortho_reference :
    (∀ (ref v : String), initOrthoReference ref = .ok v →
        (pySplit ':' ref).get? 1 = some v ∧
        ∀ (ctx : ConverterCtx) (a : GoAssociation)
          (gm : List (String × String)) (tg : List (String × GeneMetadata))
          (out : GoAssociation),
          ctx.ortho_reference = v →
          generate_annotation ctx a gm tg = .ok out →
          out.evidence.has_supporting_reference = [Curie.mk "GO_REF" v]) ∧
    initOrthoReference "FOO:123" = .ok "123" ∧
    (∀ ref : String, (∀ c ∈ ref.toList, c ≠ ':') →
        initOrthoReference ref = .error .indexError) := by
  refine ⟨?_, rfl, ?_⟩
  · intro ref v h
    unfold initOrthoReference at h
    constructor
    · cases hsp : pySplit ':' ref with
      | nil => rw [hsp] at h; exact absurd h (by simp)
      | cons x xs =>
        cases xs with
        | nil => rw [hsp] at h; exact absurd h (by simp)
        | cons y ys =>
          rw [hsp] at h
          simp only [Except.ok.injEq] at h
          subst h
          rfl
    · intro ctx a gm tg out hctx hok
      obtain ⟨mid, meta, t0, ts, h1, h2, h3, rfl⟩ :=
        generate_annotation_ok_inv ctx a gm tg out hok
      simp [orthoRewrite, hctx]
  · intro ref h
    unfold initOrthoReference pySplit
    rw [pySplitChar_no_sep ':' ref.toList h]
    rfl

/-- Witness for C10: the real configuration string `"GO_REF:0000096"`
and a colon-free string. -/
theorem C10_ortho_reference_witness :
    initOrthoReference "GO_REF:0000096" = .ok "0000096" ∧
    (pySplit ':' "GO_REF:0000096").get? 1 = some "0000096" ∧
    (ctx0.ortho_reference = "0000096" ∧
     generate_annotation ctx0 recA gm0 tg0 = .ok outA ∧
     outA.evidence.has_supporting_reference = [Curie.mk "GO_REF" "0000096"]) ∧
    initOrthoReference "noColonHere" = .error .indexError :=
  ⟨rfl, (C10_ortho_reference.1 "GO_REF:0000096" "0000096" rfl).1,
   ⟨rfl, rfl,
    (C10_ortho_reference.1 "GO_REF:0000096" "0000096" rfl).2
      ctx0 recA gm0 tg0 outA rfl rfl⟩,
   C10_ortho_reference.2.2 "noColonHere" (by decide)⟩
